import Mathlib

/-!
Shallow embedding of the E-Vidwan forum backend
(`src/back/controllers/forumController.js`, `src/back/routes/forumRoutes.js`,
the notification schema and the client `ForumService`).

Mongo ObjectIds are modelled as `Nat`; a database is the three collections
the forum controller touches (forum posts, courses, notifications) as lists
of documents.  Each controller action becomes a pure function from the
request data and the current database to a result and the next database.
`Date.now()` and freshly generated document ids are passed as parameters.
A JavaScript runtime exception (a `TypeError` on a `null` dereference, or a
rejected promise caught by the `catch (error)` block) is the `Res.thrown`
constructor; `next(createError(status, msg))` is `Res.err status msg`.
-/

namespace EVidwan

/-- A Mongo ObjectId, modelled as a natural number. -/
abbrev Oid := Nat

structure Attachment where
  filename : String
  url : String
deriving DecidableEq, Repr

/-- An embedded reply sub-document of a forum post. -/
structure Reply where
  rid : Oid
  author : Oid
  content : String
  attachments : List Attachment
  likes : List Oid
  createdAt : Nat
  updatedAt : Nat
deriving DecidableEq, Repr

/-- A `ForumPost` document (course reference, author, title, content,
category, tags, attachments, likes, embedded replies, pin/announcement
flags, creation time). -/
structure ForumPost where
  pid : Oid
  courseId : Oid
  author : Oid
  title : String
  content : String
  category : String
  tags : List String
  attachments : List Attachment
  likes : List Oid
  replies : List Reply
  isPinned : Bool
  isAnnouncement : Bool
  createdAt : Nat
deriving DecidableEq, Repr

/-- The part of a `Course` document the forum controller reads. -/
structure Course where
  cid : Oid
  title : String
  instructor : Oid
  enrolledStudents : List Oid
deriving DecidableEq, Repr

/-- A `Notification` document (user reference, message, enumerated type,
read flag). -/
structure Notification where
  userId : Oid
  message : String
  type : String
  isRead : Bool
deriving DecidableEq, Repr

/-- The `enum` of the notification schema's `type` field
(`notificationSchema` in the notification model). -/
def notificationTypeEnum : List String :=
  ["Password Reset", "Email Verification", "Login Alert",
   "Assignment Due", "New Material", "Announcement", "Welcome",
   "Course Enrollment", "Assignment Graded", "Forum Reply",
   "Course Deletion", "Assignment Submitted", "New Course",
   "New Submission", "Course Created", "Student Enrolled",
   "Annnouncement Posted", "Course Updated", "Course Deleted", "Forum Post"]

/-- The authenticated requester (`req.user`). -/
structure User where
  _id : Oid
  username : String
  role : Option String
deriving DecidableEq, Repr

/-- The three collections the forum controller reads and writes. -/
structure DB where
  posts : List ForumPost
  courses : List Course
  notifications : List Notification
deriving DecidableEq, Repr

/-- `ForumPost.findById` -/
def findPost (db : DB) (postId : Oid) : Option ForumPost :=
  db.posts.find? (fun p => p.pid == postId)

/-- `Course.findById` -/
def findCourse (db : DB) (courseId : Oid) : Option Course :=
  db.courses.find? (fun c => c.cid == courseId)

/-- `post.replies.id(replyId)` -/
def findReply (post : ForumPost) (replyId : Oid) : Option Reply :=
  post.replies.find? (fun r => r.rid == replyId)

/-- The outcome of one controller action: a successful JSON envelope with
its HTTP status, a `next(createError(status, msg))`, or a runtime
exception routed to `next(error)` by the `catch` block. -/
inductive Res (α : Type) where
  | ok (status : Nat) (val : α)
  | err (status : Nat) (msg : String)
  | thrown (msg : String)
deriving DecidableEq, Repr

/-- Replace the post with id `postId` by `post'` (a `save` or
`findByIdAndUpdate` writing one document back). -/
def writePost (db : DB) (postId : Oid) (post' : ForumPost) : DB :=
  { db with posts := db.posts.map (fun p => if p.pid == postId then post' else p) }

/-- The request body of `updatePost` (title, content, category, tags,
attachments, all present). -/
structure UpdateBody where
  title : String
  content : String
  category : String
  tags : List String
  attachments : List Attachment
deriving DecidableEq, Repr

/-- `exports.updatePost`: 404 when the post is missing, 403 when the
requester is not the author, otherwise `findByIdAndUpdate` replacing
title, content, category, tags and attachments. -/
def updatePost (db : DB) (user : User) (postId : Oid) (body : UpdateBody) :
    Res ForumPost × DB :=
  match findPost db postId with
  | none => (Res.err 404 "Post not found", db)
  | some post =>
    if post.author != user._id then
      (Res.err 403 "You are not authorized to update this post", db)
    else
      let updatedPost := { post with
        title := body.title
        content := body.content
        category := body.category
        tags := body.tags
        attachments := body.attachments }
      (Res.ok 200 updatedPost, writePost db postId updatedPost)

/-- The request body of `addReply` / `updateReply` (`attachments` may be
absent: `req.body.attachments || ...`). -/
structure ReplyBody where
  content : String
  attachments : Option (List Attachment)
deriving DecidableEq, Repr

/-- `exports.updateReply`: 404 when the post or the reply is missing, 403
when the requester is not the reply's author, otherwise the reply's
content, attachments (kept when the body has none) and `updatedAt` are
written and the post saved. -/
def updateReply (db : DB) (user : User) (postId replyId : Oid)
    (body : ReplyBody) (now : Nat) : Res Reply × DB :=
  match findPost db postId with
  | none => (Res.err 404 "Post not found", db)
  | some post =>
    match findReply post replyId with
    | none => (Res.err 404 "Reply not found", db)
    | some reply =>
      if reply.author != user._id then
        (Res.err 403 "You are not authorized to update this reply", db)
      else
        let updatedReply := { reply with
          content := body.content
          attachments := body.attachments.getD reply.attachments
          updatedAt := now }
        let post' := { post with
          replies := post.replies.map
            (fun r => if r.rid == replyId then updatedReply else r) }
        (Res.ok 200 updatedReply, writePost db postId post')

/-- `exports.getPostById`: 404 when the post is missing; the course
access check `!course.enrolledStudents.some(...) && course.instructor
!== req.user._id` dereferences `course.enrolledStudents` without a
`null` check, so a missing course is a `TypeError` caught by the
generic handler. -/
def getPostById (db : DB) (user : User) (postId : Oid) : Res ForumPost :=
  match findPost db postId with
  | none => Res.err 404 "Post not found"
  | some post =>
    match findCourse db post.courseId with
    | none =>
      Res.thrown "TypeError: Cannot read properties of null (reading enrolledStudents)"
    | some course =>
      if !(course.enrolledStudents.contains user._id)
          && course.instructor != user._id then
        Res.err 403 "You do not have access to this post"
      else
        Res.ok 200 post

/-- `await post.remove()`: the post's document is removed. -/
def removePost (db : DB) (postId : Oid) : DB :=
  { db with posts := db.posts.filter (fun p => p.pid != postId) }

/-- `exports.deletePost`: 404 when the post is missing; the guard
`post.author !== user && course.instructor !== user` evaluates
`course.instructor` only when its left side is true, so a missing
course throws only for a requester other than the author. -/
def deletePost (db : DB) (user : User) (postId : Oid) : Res String × DB :=
  match findPost db postId with
  | none => (Res.err 404 "Post not found", db)
  | some post =>
    if post.author != user._id then
      match findCourse db post.courseId with
      | none =>
        (Res.thrown "TypeError: Cannot read properties of null (reading instructor)", db)
      | some course =>
        if course.instructor != user._id then
          (Res.err 403 "You are not authorized to delete this post", db)
        else
          (Res.ok 200 "Post deleted successfully", removePost db postId)
    else
      (Res.ok 200 "Post deleted successfully", removePost db postId)

/-- `exports.addReply`: 404 when the post is missing; the same unguarded
course access check as `getPostById`; on success the reply is appended
to `post.replies`, the post saved, and a "Forum Reply" notification for
the post's author inserted. -/
def addReply (db : DB) (user : User) (postId : Oid) (body : ReplyBody)
    (newRid : Oid) (now : Nat) : Res Reply × DB :=
  match findPost db postId with
  | none => (Res.err 404 "Post not found", db)
  | some post =>
    match findCourse db post.courseId with
    | none =>
      (Res.thrown "TypeError: Cannot read properties of null (reading enrolledStudents)", db)
    | some course =>
      if !(course.enrolledStudents.contains user._id)
          && course.instructor != user._id then
        (Res.err 403 "You are not authorized to reply to this post", db)
      else
        let reply : Reply :=
          { rid := newRid
            author := user._id
            content := body.content
            attachments := body.attachments.getD []
            likes := []
            createdAt := now
            updatedAt := now }
        let post' := { post with replies := post.replies ++ [reply] }
        let db' := writePost db postId post'
        let authorForumNotification : Notification :=
          { userId := post.author
            message := "You have a new reply on your post \"" ++ post.title
              ++ " from " ++ user.username ++ " in " ++ course.title ++ "\""
            type := "Forum Reply"
            isRead := false }
        (Res.ok 201 reply,
         { db' with notifications := db'.notifications ++ [authorForumNotification] })

/-- Case-folded characters of a string (`toLowerCase`). -/
def lowerChars (s : String) : List Char := s.data.map Char.toLower

/-- `req.user.role && req.user.role.toLowerCase() === 'instructor'`:
an absent or empty role is falsy and takes the student branch. -/
def isInstructorRole (role : Option String) : Bool :=
  match role with
  | none => false
  | some r => r != "" && lowerChars r == "instructor".data

/-- The request body of `createForumPost`. -/
structure CreatePostBody where
  courseId : Oid
  title : String
  content : String
  category : String
  tags : List String
  attachments : Option (List Attachment)
deriving DecidableEq, Repr

/-- `exports.createForumPost`: 404 when the course is missing; an
instructor may only send category `Announcement` and a non-instructor
may not (400 otherwise); the post is created first and the
instructor's "Forum Post" notification saved after it (skipped when the
requester is the instructor).  `notifSaveFails` models the environment
rejecting that later `save()`: the created post stays in the database
and the error is routed to `next(error)`. -/
def createForumPost (db : DB) (user : User) (body : CreatePostBody)
    (newPid : Oid) (now : Nat) (notifSaveFails : Bool) : Res ForumPost × DB :=
  match findCourse db body.courseId with
  | none => (Res.err 404 "Course not found", db)
  | some course =>
    let post : ForumPost :=
      { pid := newPid
        courseId := body.courseId
        author := user._id
        title := body.title
        content := body.content
        category := body.category
        tags := body.tags
        attachments := body.attachments.getD []
        likes := []
        replies := []
        isPinned := false
        isAnnouncement := body.category == "Announcement"
        createdAt := now }
    let db1 := { db with posts := db.posts ++ [post] }
    let proceed : Res ForumPost × DB :=
      if course.instructor != user._id then
        if notifSaveFails then
          (Res.thrown "MongooseError: notification save rejected", db1)
        else
          let instructorNotification : Notification :=
            { userId := course.instructor
              message := "New post in " ++ course.title ++ " by "
                ++ user.username ++ ": \"" ++ body.title ++ "\""
              type := "Forum Post"
              isRead := false }
          (Res.ok 201 post,
           { db1 with notifications := db1.notifications ++ [instructorNotification] })
      else
        (Res.ok 201 post, db1)
    if isInstructorRole user.role then
      if body.category != "Announcement" then
        (Res.err 400 "Instructors can only create announcements. To answer questions, reply to a student post.", db)
      else proceed
    else
      if body.category == "Announcement" then
        (Res.err 400 "Only instructors can create announcements.", db)
      else proceed

/-- The request body of `createAnnouncement`. -/
structure AnnouncementBody where
  courseId : Oid
  title : String
  content : String
  attachments : Option (List Attachment)
deriving DecidableEq, Repr

/-- The per-student notifications `createAnnouncement` builds with
`course.enrolledStudents.map`. -/
def announcementStudentNotifications (course : Course) (title : String) :
    List Notification :=
  course.enrolledStudents.map (fun studentId =>
    { userId := studentId
      message := "New announcement in " ++ course.title ++ ": \"" ++ title ++ "\""
      type := "Announcement"
      isRead := false })

/-- `exports.createAnnouncement`: 404 when the course is missing, 403 when
the requester is not the course's instructor; otherwise the announcement
post is created (category `Announcement`; `isAnnouncement` and `tags`
are left to their schema defaults), one notification per enrolled
student is `insertMany`-ed (the guard skips the call for an empty list),
and one notification for the instructor is saved. -/
def createAnnouncement (db : DB) (user : User) (body : AnnouncementBody)
    (newPid : Oid) (now : Nat) : Res ForumPost × DB :=
  match findCourse db body.courseId with
  | none => (Res.err 404 "Course not found", db)
  | some course =>
    if course.instructor != user._id then
      (Res.err 403 "Only instructors can create announcements", db)
    else
      let announcement : ForumPost :=
        { pid := newPid
          courseId := body.courseId
          author := user._id
          title := body.title
          content := body.content
          category := "Announcement"
          tags := []
          attachments := body.attachments.getD []
          likes := []
          replies := []
          isPinned := false
          isAnnouncement := false
          createdAt := now }
      let db1 := { db with posts := db.posts ++ [announcement] }
      let db2 :=
        if course.enrolledStudents.length > 0 then
          { db1 with notifications :=
              db1.notifications ++ announcementStudentNotifications course body.title }
        else db1
      let instructorAnnouncementNotification : Notification :=
        { userId := course.instructor
          message := "You created a new announcement in " ++ course.title
            ++ ": \"" ++ body.title ++ "\""
          type := "Announcement"
          isRead := false }
      (Res.ok 201 announcement,
       { db2 with notifications := db2.notifications ++ [instructorAnnouncementNotification] })

/-- The like-toggling both `toggleLikePost` and `toggleLikeReply` repeat:
`indexOf` the user's id, `push` when it is `-1`, `splice(likeIndex, 1)`
otherwise; the returned flag is `isLiked` (`likeIndex === -1`). -/
def toggleLikes (likes : List Oid) (uid : Oid) : List Oid × Bool :=
  match likes.indexOf? uid with
  | none => (likes ++ [uid], true)
  | some likeIndex => (likes.eraseIdx likeIndex, false)

/-- `exports.toggleLikePost`: 404 when the post is missing; otherwise the
post's likes are toggled, the post saved, and the new like count and
`isLiked` returned. -/
def toggleLikePost (db : DB) (user : User) (postId : Oid) :
    Res (Nat × Bool) × DB :=
  match findPost db postId with
  | none => (Res.err 404 "Post not found", db)
  | some post =>
    let toggled := toggleLikes post.likes user._id
    let post' := { post with likes := toggled.1 }
    (Res.ok 200 (toggled.1.length, toggled.2), writePost db postId post')

/-- `exports.toggleLikeReply`: 404 when the post or the reply is missing;
otherwise the reply's likes are toggled and the post saved. -/
def toggleLikeReply (db : DB) (user : User) (postId replyId : Oid) :
    Res (Nat × Bool) × DB :=
  match findPost db postId with
  | none => (Res.err 404 "Post not found", db)
  | some post =>
    match findReply post replyId with
    | none => (Res.err 404 "Reply not found", db)
    | some reply =>
      let toggled := toggleLikes reply.likes user._id
      let reply' := { reply with likes := toggled.1 }
      let post' := { post with
        replies := post.replies.map
          (fun r => if r.rid == replyId then reply' else r) }
      (Res.ok 200 (toggled.1.length, toggled.2), writePost db postId post')

/-- `pat` occurs as a contiguous run inside `text`. -/
def containsSub (pat : List Char) : List Char → Bool
  | [] => pat.isEmpty
  | c :: cs => List.isPrefixOf pat (c :: cs) || containsSub pat cs

/-- The `$regex: pattern, $options: 'i'` test, for a pattern with no regex
metacharacters (the spec: substring regex only): case-insensitive
containment. -/
def regexMatchI (pattern text : String) : Bool :=
  containsSub (lowerChars pattern) (lowerChars text)

/-- Which field an `$or` regex condition reads. -/
inductive RegexField where
  | title
  | content
deriving DecidableEq, Repr

/-- One `field: [$regex: pattern, $options: 'i']` condition. -/
structure RegexCond where
  field : RegexField
  pattern : String
deriving DecidableEq, Repr

/-- The Mongo queries the forum controller builds: optional equality
conditions on `courseId`, `category` and `author`, and an optional
`$or` list of case-insensitive regex conditions. -/
structure Query where
  courseId : Option Oid
  category : Option String
  author : Option Oid
  orConds : Option (List RegexCond)
deriving DecidableEq, Repr

def emptyQuery : Query :=
  { courseId := none, category := none, author := none, orConds := none }

def evalRegexCond (p : ForumPost) (c : RegexCond) : Bool :=
  match c.field with
  | RegexField.title => regexMatchI c.pattern p.title
  | RegexField.content => regexMatchI c.pattern p.content

/-- Whether a post satisfies a query: every equality condition holds and,
when an `$or` list is present, at least one of its conditions holds. -/
def evalQuery (q : Query) (p : ForumPost) : Bool :=
  (match q.courseId with | none => true | some cid => p.courseId == cid)
  && (match q.category with | none => true | some cat => p.category == cat)
  && (match q.author with | none => true | some a => p.author == a)
  && (match q.orConds with | none => true | some conds => conds.any (evalRegexCond p))

/-- The `$or` the controllers attach for a search string: title regex or
content regex, both with `$options: 'i'`. -/
def searchOrConds (search : String) : List RegexCond :=
  [{ field := RegexField.title, pattern := search },
   { field := RegexField.content, pattern := search }]

/-- `if (search)`: a query-string value is truthy when present and
non-empty. -/
def addSearch (q : Query) (search : Option String) : Query :=
  match search with
  | none => q
  | some s => if s != "" then { q with orConds := some (searchOrConds s) } else q

/-- The query `getAllPosts` builds. -/
def getAllPostsQuery (search : Option String) : Query :=
  addSearch emptyQuery search

/-- The query `getCourseDiscussions` builds (`courseId` always, `category`
and the search `$or` when truthy). -/
def getCourseDiscussionsQuery (courseId : Oid) (category search : Option String) :
    Query :=
  let q1 : Query := { emptyQuery with courseId := some courseId }
  let q2 :=
    match category with
    | none => q1
    | some c => if c != "" then { q1 with category := some c } else q1
  addSearch q2 search

/-- Insert `a` into a list sorted by `le`, before the first element it
`le`-precedes. -/
def insertLe (le : α → α → Bool) (a : α) : List α → List α
  | [] => [a]
  | b :: bs => if le a b then a :: b :: bs else b :: insertLe le a bs

/-- Sort a list by `le` (the controller's `.sort(...)` on the query
result). -/
def sortByLe (le : α → α → Bool) : List α → List α
  | [] => []
  | a :: as => insertLe le a (sortByLe le as)

/-- `.sort(createdAt: -1)`: newest first. -/
def byCreatedAtDesc (a b : ForumPost) : Bool := b.createdAt ≤ a.createdAt

/-- `.sort(isPinned: -1, createdAt: -1)`: pinned first, then newest
first. -/
def byPinnedThenCreatedDesc (a b : ForumPost) : Bool :=
  if a.isPinned == b.isPinned then b.createdAt ≤ a.createdAt else a.isPinned

/-- `.skip((page - 1) * limit).limit(limit)` applied to a query result. -/
def paginate (l : List α) (page limit : Nat) : List α :=
  List.take limit (List.drop ((page - 1) * limit) l)

/-- The `pagination` object of the JSON envelope. -/
structure Pagination where
  total : Nat
  page : Nat
  pages : Nat
deriving DecidableEq, Repr

/-- `total, page: parseInt(page), pages: Math.ceil(total / limit)` (the
ceiling as natural-number arithmetic, for a positive `limit`). -/
def paginationOf (total page limit : Nat) : Pagination :=
  { total := total, page := page, pages := (total + limit - 1) / limit }

/-- `exports.getAllPosts` (read-only): filter by the search query, sort by
creation time descending, paginate, and count the matching documents. -/
def getAllPosts (db : DB) (page limit : Nat) (search : Option String) :
    Res (List ForumPost × Pagination) :=
  let query := getAllPostsQuery search
  let matching := db.posts.filter (evalQuery query)
  let posts := paginate (sortByLe byCreatedAtDesc matching) page limit
  Res.ok 200 (posts, paginationOf matching.length page limit)

/-- `exports.getCourseDiscussions` (read-only): 404 when the course is
missing, 403 when the requester is neither enrolled nor the instructor;
otherwise filter by course, optional category and search, sort pinned
first then newest first, paginate, and count the matching documents. -/
def getCourseDiscussions (db : DB) (user : User) (courseId : Oid)
    (page limit : Nat) (category search : Option String) :
    Res (List ForumPost × Pagination) :=
  match findCourse db courseId with
  | none => Res.err 404 "Course not found"
  | some course =>
    if !(course.enrolledStudents.contains user._id)
        && course.instructor != user._id then
      Res.err 403 "You do not have access to this course"
    else
      let query := getCourseDiscussionsQuery courseId category search
      let matching := db.posts.filter (evalQuery query)
      let posts := paginate (sortByLe byPinnedThenCreatedDesc matching) page limit
      Res.ok 200 (posts, paginationOf matching.length page limit)

/-- `exports.getMyPosts` (read-only): the requester's posts, newest first,
paginated. -/
def getMyPosts (db : DB) (user : User) (page limit : Nat) :
    Res (List ForumPost × Pagination) :=
  let query : Query := { emptyQuery with author := some user._id }
  let matching := db.posts.filter (evalQuery query)
  let posts := paginate (sortByLe byCreatedAtDesc matching) page limit
  Res.ok 200 (posts, paginationOf matching.length page limit)

/-- The handlers `forumRoutes.js` imports from the controller. -/
inductive Handler where
  | createForumPost
  | getAllPosts
  | getPostById
  | updatePost
  | deletePost
  | addReply
  | updateReply
  | deleteReply
  | getCourseDiscussions
  | toggleLikePost
  | toggleLikeReply
  | getAnnouncements
  | createAnnouncement
  | pinPost
  | getMyPosts
deriving DecidableEq, Repr

inductive Method where
  | GET
  | POST
  | PUT
  | DELETE
deriving DecidableEq, Repr

/-- One segment of an Express route pattern: a literal or a `:name`
parameter. -/
inductive Seg where
  | lit (s : String)
  | param (name : String)
deriving DecidableEq, Repr

structure Route where
  method : Method
  pattern : List Seg
  handler : Handler
deriving DecidableEq, Repr

/-- The forum router's routes in registration order
(`src/back/routes/forumRoutes.js`). -/
def forumRoutes : List Route :=
  [⟨Method.GET, [Seg.lit "course", Seg.param "courseId"], Handler.getCourseDiscussions⟩,
   ⟨Method.GET, [Seg.lit "my-posts"], Handler.getMyPosts⟩,
   ⟨Method.GET, [Seg.lit "announcements"], Handler.getAnnouncements⟩,
   ⟨Method.GET, [Seg.param "postId"], Handler.getPostById⟩,
   ⟨Method.POST, [Seg.lit "create"], Handler.createForumPost⟩,
   ⟨Method.PUT, [Seg.param "postId"], Handler.updatePost⟩,
   ⟨Method.DELETE, [Seg.param "postId"], Handler.deletePost⟩,
   ⟨Method.POST, [Seg.param "postId", Seg.lit "reply"], Handler.addReply⟩,
   ⟨Method.PUT, [Seg.param "postId", Seg.lit "reply", Seg.param "replyId"], Handler.updateReply⟩,
   ⟨Method.DELETE, [Seg.param "postId", Seg.lit "reply", Seg.param "replyId"], Handler.deleteReply⟩,
   ⟨Method.POST, [Seg.param "postId", Seg.lit "like"], Handler.toggleLikePost⟩,
   ⟨Method.POST, [Seg.param "postId", Seg.lit "reply", Seg.param "replyId", Seg.lit "like"], Handler.toggleLikeReply⟩,
   ⟨Method.POST, [Seg.lit "announcement"], Handler.createAnnouncement⟩,
   ⟨Method.PUT, [Seg.param "postId", Seg.lit "pin"], Handler.pinPost⟩,
   ⟨Method.GET, [Seg.lit "all"], Handler.getAllPosts⟩]

/-- Match a route pattern against a request path's segments, collecting
the `:name` parameter bindings. -/
def matchPattern : List Seg → List String → Option (List (String × String))
  | [], [] => some []
  | Seg.lit s :: ps, t :: ts => if s == t then matchPattern ps ts else none
  | Seg.param n :: ps, t :: ts => (matchPattern ps ts).map (fun l => (n, t) :: l)
  | _, _ => none

/-- Express dispatch: the first registered route whose method and pattern
match handles the request. -/
def dispatch : List Route → Method → List String →
    Option (Handler × List (String × String))
  | [], _, _ => none
  | r :: rs, m, segs =>
    if r.method == m then
      match matchPattern r.pattern segs with
      | some params => some (r.handler, params)
      | none => dispatch rs m segs
    else dispatch rs m segs

/-- Dispatch on the forum router. -/
def forumDispatch (m : Method) (segs : List String) :
    Option (Handler × List (String × String)) :=
  dispatch forumRoutes m segs

/-- Whether a dispatch outcome reaches the `getAllPosts` handler. -/
def hitsGetAllPosts : Option (Handler × List (String × String)) → Bool
  | some (h, _) => h == Handler.getAllPosts
  | none => false

/-! ## Concrete fixtures used by witnesses and counterexamples -/

def exReply : Reply := ⟨7, 1, "first reply", [], [3], 50, 50⟩

def exPost : ForumPost :=
  ⟨10, 5, 1, "Title", "Content", "Question", [], [], [1, 2], [exReply], false, false, 100⟩

def exCourse : Course := ⟨5, "Math", 3, [1, 2]⟩

def exUserA : User := ⟨1, "alice", some "student"⟩

def exUserB : User := ⟨2, "bob", some "student"⟩

def exInstructor : User := ⟨3, "carol", some "Instructor"⟩

def exDB : DB := ⟨[exPost], [exCourse], []⟩

def exDBNoCourse : DB := ⟨[exPost], [], []⟩

def exBody : UpdateBody := ⟨"T2", "C2", "General", ["tag"], []⟩

def exRBody : ReplyBody := ⟨"new content", none⟩

/-! ## Helper lemmas -/

theorem findPost_pid {db : DB} {postId : Oid} {p : ForumPost}
    (h : findPost db postId = some p) : p.pid = postId := by
  simpa [beq_iff_eq] using List.find?_some h

theorem find?_map_replace (posts : List ForumPost) (postId : Oid)
    (post' p : ForumPost)
    (h : posts.find? (fun q => q.pid == postId) = some p)
    (hp : post'.pid = postId) :
    (posts.map (fun q => if q.pid == postId then post' else q)).find?
      (fun q => q.pid == postId) = some post' := by
  induction posts with
  | nil => simp at h
  | cons a as ih =>
    cases hb : (a.pid == postId) with
    | true =>
      have ha : a.pid = postId := by simpa using hb
      simp [List.find?_cons, ha, hp]
    | false =>
      simp only [List.find?_cons, hb] at h
      simp only [List.map_cons, List.find?_cons, hb, Bool.false_eq_true,
        if_false]
      exact ih h

theorem findPost_writePost {db : DB} {postId : Oid} {p : ForumPost}
    (post' : ForumPost) (h : findPost db postId = some p)
    (hp : post'.pid = postId) :
    findPost (writePost db postId post') postId = some post' :=
  find?_map_replace db.posts postId post' p h hp

theorem mem_writePost_iff {db : DB} {postId : Oid} {post' q : ForumPost}
    (hp : post'.pid = postId) (hq : q.pid ≠ postId) :
    (q ∈ (writePost db postId post').posts ↔ q ∈ db.posts) := by
  simp only [writePost, List.mem_map]
  constructor
  · rintro ⟨r, hr, hrq⟩
    by_cases h : r.pid = postId
    · rw [if_pos (by simpa [beq_iff_eq] using h)] at hrq
      exact absurd (hrq ▸ hp) hq
    · rw [if_neg (by simpa [beq_iff_eq] using h)] at hrq
      exact hrq ▸ hr
  · intro hq'
    exact ⟨q, hq', by rw [if_neg (by simpa [beq_iff_eq] using hq)]⟩

theorem length_writePost (db : DB) (postId : Oid) (post' : ForumPost) :
    (writePost db postId post').posts.length = db.posts.length := by
  simp [writePost]

/-! ## C1 -/

/-- C1: for `updatePost` and `updateReply`, a requester whose id differs
from the stored author's id gets a 403 and the database is unchanged;
the author's own request proceeds. -/
theorem claim_C1_author_only_edit (db : DB) (user : User)
    (postId replyId : Oid) (body : UpdateBody) (rbody : ReplyBody)
    (now : Nat) (p : ForumPost) (hp : findPost db postId = some p) :
    (p.author ≠ user._id →
       updatePost db user postId body =
         (Res.err 403 "You are not authorized to update this post", db))
    ∧ (p.author = user._id →
       ∃ up, updatePost db user postId body =
         (Res.ok 200 up, writePost db postId up))
    ∧ (∀ r, findReply p replyId = some r → r.author ≠ user._id →
       updateReply db user postId replyId rbody now =
         (Res.err 403 "You are not authorized to update this reply", db))
    ∧ (∀ r, findReply p replyId = some r → r.author = user._id →
       ∃ ur, (updateReply db user postId replyId rbody now).1 =
         Res.ok 200 ur) := by
  refine ⟨fun h => ?_, fun h => ?_, fun r hr h => ?_, fun r hr h => ?_⟩
  · simp [updatePost, hp, h]
  · exact ⟨⟨p.pid, p.courseId, p.author, body.title, body.content, body.category, body.tags, body.attachments, p.likes, p.replies, p.isPinned, p.isAnnouncement, p.createdAt⟩, by simp [updatePost, hp, h]⟩
  · simp [updateReply, hp, hr, h]
  · exact ⟨⟨r.rid, r.author, rbody.content, rbody.attachments.getD r.attachments, r.likes, r.createdAt, now⟩, by simp [updateReply, hp, hr, h]⟩

/-- Witness for C1 at a concrete database. -/
theorem claim_C1_author_only_edit_witness :
    (updatePost exDB exUserB 10 exBody =
      (Res.err 403 "You are not authorized to update this post", exDB))
    ∧ (∃ up, updatePost exDB exUserA 10 exBody =
        (Res.ok 200 up, writePost exDB 10 up))
    ∧ (updateReply exDB exUserB 10 7 exRBody 60 =
        (Res.err 403 "You are not authorized to update this reply", exDB))
    ∧ (∃ ur, (updateReply exDB exUserA 10 7 exRBody 60).1 =
        Res.ok 200 ur) :=
  ⟨(claim_C1_author_only_edit exDB exUserB 10 7 exBody exRBody 60 exPost
      (by decide)).1 (by decide),
   (claim_C1_author_only_edit exDB exUserA 10 7 exBody exRBody 60 exPost
      (by decide)).2.1 (by decide),
   (claim_C1_author_only_edit exDB exUserB 10 7 exBody exRBody 60 exPost
      (by decide)).2.2.1 exReply (by decide) (by decide),
   (claim_C1_author_only_edit exDB exUserA 10 7 exBody exRBody 60 exPost
      (by decide)).2.2.2 exReply (by decide) (by decide)⟩

/-! ## C2 -/

/-- C2 counterexample: in a database whose post references a course that
does not exist, `getPostById` reads `course.enrolledStudents` without
establishing that the course exists: the result is the propagated
`TypeError`, not a 404. -/
theorem claim_C2_counterexample :
    findPost exDBNoCourse 10 = some exPost
    ∧ findCourse exDBNoCourse exPost.courseId = none
    ∧ getPostById exDBNoCourse exUserA 10 =
        Res.thrown "TypeError: Cannot read properties of null (reading enrolledStudents)"
    ∧ getPostById exDBNoCourse exUserA 10 ≠ Res.err 404 "Course not found"
    ∧ getPostById exDBNoCourse exUserA 10 ≠ Res.err 404 "Post not found" := by
  decide

/-- C2 amended: post lookups are validated and answered with a 404, but
`getPostById`, `addReply` and `deletePost` dereference the course
referenced by the post without an existence check: when that course is
missing they raise a `TypeError` (routed to the generic error handler)
instead of returning a 404 — for `deletePost` only when the requester is
not the author, since `&&` short-circuits before `course.instructor` is
read. -/
theorem claim_C2_missing_course_unchecked (db : DB) (user : User)
    (postId : Oid) (body : ReplyBody) (newRid : Oid) (now : Nat) :
    (findPost db postId = none →
       getPostById db user postId = Res.err 404 "Post not found"
       ∧ addReply db user postId body newRid now =
           (Res.err 404 "Post not found", db)
       ∧ deletePost db user postId = (Res.err 404 "Post not found", db))
    ∧ (∀ p, findPost db postId = some p → findCourse db p.courseId = none →
       getPostById db user postId =
         Res.thrown "TypeError: Cannot read properties of null (reading enrolledStudents)"
       ∧ (addReply db user postId body newRid now).1 =
           Res.thrown "TypeError: Cannot read properties of null (reading enrolledStudents)"
       ∧ (p.author ≠ user._id →
          (deletePost db user postId).1 =
            Res.thrown "TypeError: Cannot read properties of null (reading instructor)")
       ∧ (p.author = user._id →
          deletePost db user postId =
            (Res.ok 200 "Post deleted successfully", removePost db postId))) := by
  refine ⟨fun h => ⟨?_, ?_, ?_⟩, fun p hp hc => ⟨?_, ?_, fun hne => ?_, fun heq => ?_⟩⟩
  · simp [getPostById, h]
  · simp [addReply, h]
  · simp [deletePost, h]
  · simp [getPostById, hp, hc]
  · simp [addReply, hp, hc]
  · simp [deletePost, hp, hc, hne]
  · simp [deletePost, hp, heq]

/-- Witness for C2's amended statement at a concrete database with a
dangling course reference. -/
theorem claim_C2_missing_course_unchecked_witness :
    getPostById exDBNoCourse exUserA 10 =
      Res.thrown "TypeError: Cannot read properties of null (reading enrolledStudents)"
    ∧ (addReply exDBNoCourse exUserA 10 exRBody 99 500).1 =
      Res.thrown "TypeError: Cannot read properties of null (reading enrolledStudents)"
    ∧ (deletePost exDBNoCourse exUserB 10).1 =
      Res.thrown "TypeError: Cannot read properties of null (reading instructor)"
    ∧ getPostById exDB exUserA 11 = Res.err 404 "Post not found" :=
  ⟨((claim_C2_missing_course_unchecked exDBNoCourse exUserA 10 exRBody 99 500).2
      exPost (by decide) (by decide)).1,
   ((claim_C2_missing_course_unchecked exDBNoCourse exUserA 10 exRBody 99 500).2
      exPost (by decide) (by decide)).2.1,
   ((claim_C2_missing_course_unchecked exDBNoCourse exUserB 10 exRBody 99 500).2
      exPost (by decide) (by decide)).2.2.1 (by decide),
   ((claim_C2_missing_course_unchecked exDB exUserA 11 exRBody 99 500).1
      (by decide)).1⟩

/-! ## C3 -/

/-- C3: creating a post and inserting its notification are not atomic:
with the course present, a valid category, and an instructor different
from the requester, a failing notification save leaves the freshly
created post in the database while the notifications collection is
unchanged. -/
theorem claim_C3_post_without_notification (db : DB) (user : User)
    (body : CreatePostBody) (newPid : Oid) (now : Nat) (c : Course)
    (hc : findCourse db body.courseId = some c)
    (hrole : isInstructorRole user.role = false)
    (hcat : body.category ≠ "Announcement")
    (hinstr : c.instructor ≠ user._id) :
    ∃ post db',
      createForumPost db user body newPid now true =
        (Res.thrown "MongooseError: notification save rejected", db')
      ∧ db'.posts = db.posts ++ [post]
      ∧ post ∈ db'.posts
      ∧ post.pid = newPid ∧ post.author = user._id
      ∧ post.title = body.title ∧ post.content = body.content
      ∧ db'.notifications = db.notifications := by
  have key : createForumPost db user body newPid now true =
      (Res.thrown "MongooseError: notification save rejected",
       { db with posts := db.posts ++ [⟨newPid, body.courseId, user._id, body.title, body.content, body.category, body.tags, body.attachments.getD [], [], [], false, body.category == "Announcement", now⟩] }) := by
    simp [createForumPost, hc, hrole, hcat, hinstr]
  exact ⟨_, _, key, rfl, by simp, rfl, rfl, rfl, rfl, rfl⟩

/-- Witness for C3 at a concrete database. -/
theorem claim_C3_post_without_notification_witness :
    ∃ post db',
      createForumPost exDB exUserA ⟨5, "t2", "c2", "Question", [], none⟩ 11 200 true =
        (Res.thrown "MongooseError: notification save rejected", db')
      ∧ db'.posts = exDB.posts ++ [post]
      ∧ post ∈ db'.posts
      ∧ post.pid = 11 ∧ post.author = exUserA._id
      ∧ post.title = "t2" ∧ post.content = "c2"
      ∧ db'.notifications = exDB.notifications :=
  claim_C3_post_without_notification exDB exUserA
    ⟨5, "t2", "c2", "Question", [], none⟩ 11 200 exCourse
    (by decide) (by decide) (by decide) (by decide)

/-! ## C10 -/

/-- C10: with the referenced course present, `createForumPost` answers
400 and leaves the database unchanged when an instructor supplies a
category other than `Announcement` or a non-instructor supplies
`Announcement`; every successfully created post has
`isAnnouncement = (category == "Announcement")`. -/
theorem claim_C10_category_gate (db : DB) (user : User)
    (body : CreatePostBody) (newPid : Oid) (now : Nat) (nf : Bool)
    (c : Course) (hc : findCourse db body.courseId = some c) :
    (isInstructorRole user.role = true → body.category ≠ "Announcement" →
       createForumPost db user body newPid now nf =
         (Res.err 400 "Instructors can only create announcements. To answer questions, reply to a student post.", db))
    ∧ (isInstructorRole user.role = false → body.category = "Announcement" →
       createForumPost db user body newPid now nf =
         (Res.err 400 "Only instructors can create announcements.", db))
    ∧ (∀ post db', createForumPost db user body newPid now nf =
         (Res.ok 201 post, db') →
       post.isAnnouncement = (body.category == "Announcement")) := by
  refine ⟨fun hr hcat => ?_, fun hr hcat => ?_, fun post db' hok => ?_⟩
  · simp [createForumPost, hc, hr, hcat]
  · simp [createForumPost, hc, hr, hcat]
  · unfold createForumPost at hok
    rw [hc] at hok
    by_cases hri : isInstructorRole user.role
      <;> by_cases hca : body.category = "Announcement"
      <;> by_cases hcb : c.instructor = user._id
      <;> cases nf
      <;> simp [hri, hca, hcb] at hok
      <;> rcases hok with ⟨hpost, hdb⟩
      <;> rw [← hpost]
      <;> simp [hca]

/-- Witness for C10 at concrete requests. -/
theorem claim_C10_category_gate_witness :
    (createForumPost exDB exInstructor ⟨5, "t", "c", "Question", [], none⟩ 11 200 false =
      (Res.err 400 "Instructors can only create announcements. To answer questions, reply to a student post.", exDB))
    ∧ (createForumPost exDB exUserA ⟨5, "t", "c", "Announcement", [], none⟩ 11 200 false =
      (Res.err 400 "Only instructors can create announcements.", exDB))
    ∧ ∀ post db', createForumPost exDB exUserA ⟨5, "t", "c", "Question", [], none⟩ 11 200 false =
        (Res.ok 201 post, db') →
      post.isAnnouncement = ("Question" == "Announcement") :=
  ⟨(claim_C10_category_gate exDB exInstructor ⟨5, "t", "c", "Question", [], none⟩
      11 200 false exCourse (by decide)).1 (by decide) (by decide),
   (claim_C10_category_gate exDB exUserA ⟨5, "t", "c", "Announcement", [], none⟩
      11 200 false exCourse (by decide)).2.1 (by decide) (by decide),
   (claim_C10_category_gate exDB exUserA ⟨5, "t", "c", "Question", [], none⟩
      11 200 false exCourse (by decide)).2.2⟩

/-! ## C6 -/

/-- C6: a successful `updatePost` replaces exactly title, content,
category, tags and attachments; author, courseId, likes, replies,
isPinned, isAnnouncement and createdAt are unchanged, the updated
document is stored under its id, and every other post is untouched
(membership elsewhere is preserved and none is deleted). -/
theorem claim_C6_update_frame (db : DB) (user : User) (postId : Oid)
    (body : UpdateBody) (p : ForumPost)
    (hp : findPost db postId = some p) (hauth : p.author = user._id) :
    ∃ up,
      updatePost db user postId body = (Res.ok 200 up, writePost db postId up)
      ∧ up.title = body.title ∧ up.content = body.content
      ∧ up.category = body.category ∧ up.tags = body.tags
      ∧ up.attachments = body.attachments
      ∧ up.author = p.author ∧ up.courseId = p.courseId
      ∧ up.likes = p.likes ∧ up.replies = p.replies
      ∧ up.isPinned = p.isPinned ∧ up.isAnnouncement = p.isAnnouncement
      ∧ up.createdAt = p.createdAt
      ∧ findPost (writePost db postId up) postId = some up
      ∧ (∀ q, q.pid ≠ postId →
          (q ∈ (writePost db postId up).posts ↔ q ∈ db.posts))
      ∧ (writePost db postId up).posts.length = db.posts.length := by
  have hpid : p.pid = postId := findPost_pid hp
  refine ⟨⟨postId, p.courseId, p.author, body.title, body.content, body.category, body.tags, body.attachments, p.likes, p.replies, p.isPinned, p.isAnnouncement, p.createdAt⟩, ?_, rfl, rfl, rfl, rfl, rfl, rfl, rfl, rfl, rfl, rfl, rfl, rfl, ?_, ?_, ?_⟩
  · simp [updatePost, hp, hauth, hpid]
  · exact findPost_writePost _ hp rfl
  · exact fun q hq => mem_writePost_iff rfl hq
  · exact length_writePost db postId _

/-- Witness for C6 at a concrete database. -/
theorem claim_C6_update_frame_witness :
    ∃ up,
      updatePost exDB exUserA 10 exBody = (Res.ok 200 up, writePost exDB 10 up)
      ∧ up.title = "T2" ∧ up.content = "C2"
      ∧ up.category = "General" ∧ up.tags = ["tag"]
      ∧ up.attachments = []
      ∧ up.author = exPost.author ∧ up.courseId = exPost.courseId
      ∧ up.likes = exPost.likes ∧ up.replies = exPost.replies
      ∧ up.isPinned = exPost.isPinned ∧ up.isAnnouncement = exPost.isAnnouncement
      ∧ up.createdAt = exPost.createdAt
      ∧ findPost (writePost exDB 10 up) 10 = some up
      ∧ (∀ q, q.pid ≠ 10 →
          (q ∈ (writePost exDB 10 up).posts ↔ q ∈ exDB.posts))
      ∧ (writePost exDB 10 up).posts.length = exDB.posts.length :=
  claim_C6_update_frame exDB exUserA 10 exBody exPost (by decide) (by decide)

/-! ## C9 -/

theorem toggleLikes_nil (uid : Oid) : toggleLikes [] uid = ([uid], true) := rfl

theorem toggleLikes_cons (b : Oid) (bs : List Oid) (uid : Oid) :
    toggleLikes (b :: bs) uid =
      if b = uid then (bs, false)
      else ((b :: (toggleLikes bs uid).1), (toggleLikes bs uid).2) := by
  unfold toggleLikes
  rw [List.indexOf?, List.findIdx?_cons]
  by_cases h : b = uid
  · simp [h]
  · rw [if_neg (by simpa using h), if_neg h, List.findIdx?_succ]
    cases hx : List.findIdx? (fun x => x == uid) bs 0 with
    | none => simp [List.indexOf?, hx]
    | some i => simp [List.indexOf?, hx, List.eraseIdx_cons_succ]

/-- `toggleLikes` in closed form: remove the first occurrence when the
user already likes, append the user otherwise. -/
theorem toggleLikes_eq (likes : List Oid) (uid : Oid) :
    toggleLikes likes uid =
      if uid ∈ likes then (likes.erase uid, false)
      else (likes ++ [uid], true) := by
  induction likes with
  | nil => simp [toggleLikes_nil]
  | cons b bs ih =>
    rw [toggleLikes_cons]
    by_cases h : b = uid
    · subst h
      simp [List.erase_cons_head]
    · rw [ih]
      by_cases hm : uid ∈ bs
      · have he : (b :: bs).erase uid = b :: bs.erase uid :=
          List.erase_cons_tail (by simp [h])
        simp [h, hm, Ne.symm h, he]
      · simp [h, hm, Ne.symm h]

/-- C9 counterexample: toggling the same user twice does not restore the
stored likes list when the user was not its last element: `[1, 2]`
becomes `[2]` and then `[2, 1]`. -/
theorem claim_C9_counterexample :
    exPost.likes = [1, 2]
    ∧ Option.map ForumPost.likes
        (findPost (toggleLikePost (toggleLikePost exDB exUserA 10).2 exUserA 10).2 10) =
      some [2, 1]
    ∧ ([2, 1] : List Oid) ≠ [1, 2] := by
  decide

/-- C9 amended: one toggle appends an absent user's id (reporting
`isLiked` and the incremented count) and removes the first occurrence of
a present user's id (reporting the decremented count); toggling twice
restores the list exactly when the user was absent, and restores it up
to permutation (the id moves to the end) when the user was present in a
duplicate-free likes list.  Both like endpoints apply this to the stored
document. -/
theorem claim_C9_toggle_like (likes : List Oid) (uid : Oid)
    (hnd : likes.Nodup) :
    (uid ∉ likes →
       toggleLikes likes uid = (likes ++ [uid], true)
       ∧ (toggleLikes likes uid).1.length = likes.length + 1
       ∧ (toggleLikes (toggleLikes likes uid).1 uid).1 = likes)
    ∧ (uid ∈ likes →
       toggleLikes likes uid = (likes.erase uid, false)
       ∧ (toggleLikes likes uid).1.length + 1 = likes.length
       ∧ uid ∉ (toggleLikes likes uid).1
       ∧ ((toggleLikes (toggleLikes likes uid).1 uid).1).Perm likes)
    ∧ (∀ db user postId p, findPost db postId = some p →
       toggleLikePost db user postId =
         (Res.ok 200 ((toggleLikes p.likes user._id).1.length, (toggleLikes p.likes user._id).2), writePost db postId { p with likes := (toggleLikes p.likes user._id).1 }))
    ∧ (∀ db user postId replyId p r, findPost db postId = some p →
       findReply p replyId = some r →
       (toggleLikeReply db user postId replyId).1 =
         Res.ok 200 ((toggleLikes r.likes user._id).1.length, (toggleLikes r.likes user._id).2)) := by
  refine ⟨fun h => ?_, fun h => ?_, fun db user postId p hp => ?_, fun db user postId replyId p r hp hr => ?_⟩
  · have h1 : toggleLikes likes uid = (likes ++ [uid], true) := by
      simp [toggleLikes_eq, h]
    refine ⟨h1, by simp [h1], ?_⟩
    rw [h1]
    have hmem : uid ∈ likes ++ [uid] := by simp
    rw [toggleLikes_eq, if_pos hmem, List.erase_append_right _ h]
    simp
  · have h1 : toggleLikes likes uid = (likes.erase uid, false) := by
      simp [toggleLikes_eq, h]
    have hnm : uid ∉ likes.erase uid := by
      simp [hnd.mem_erase_iff]
    refine ⟨h1, ?_, by simp [h1, hnm], ?_⟩
    · rw [h1]
      exact List.length_erase_add_one h
    · rw [h1]
      have h2 : (toggleLikes (likes.erase uid) uid).1 = likes.erase uid ++ [uid] := by
        simp [toggleLikes_eq, hnm]
      rw [h2]
      exact (List.perm_append_comm.trans (List.perm_cons_erase h).symm)
  · simp [toggleLikePost, hp]
  · simp [toggleLikeReply, hp, hr]

/-- Witness for C9's amended statement at concrete likes lists and a
concrete database. -/
theorem claim_C9_toggle_like_witness :
    (toggleLikes [1, 2] 3 = ([1, 2, 3], true)
     ∧ (toggleLikes [1, 2] 3).1.length = 3
     ∧ (toggleLikes (toggleLikes [1, 2] 3).1 3).1 = [1, 2])
    ∧ (toggleLikes [1, 2] 1 = ([2], false)
       ∧ (toggleLikes [1, 2] 1).1.length + 1 = 2
       ∧ 1 ∉ (toggleLikes [1, 2] 1).1
       ∧ ((toggleLikes (toggleLikes [1, 2] 1).1 1).1).Perm [1, 2]) :=
  ⟨by
    have h := (claim_C9_toggle_like [1, 2] 3 (by decide)).1 (by decide)
    simpa using h,
   by
    have h := (claim_C9_toggle_like [1, 2] 1 (by decide)).2.1 (by decide)
    simpa using h⟩

/-! ## C7 -/

/-- C7: a successful `createAnnouncement` by the course's instructor with
`n` enrolled students inserts exactly `n + 1` notifications: one per
enrolled student (in order) plus one for the instructor, each with type
`Announcement` (a member of the notification schema's enum) and
`isRead = false`. -/
theorem claim_C7_announcement_fanout (db : DB) (user : User)
    (body : AnnouncementBody) (newPid : Oid) (now : Nat) (course : Course)
    (hc : findCourse db body.courseId = some course)
    (hinstr : course.instructor = user._id) :
    ∃ announcement newNotifs db',
      createAnnouncement db user body newPid now = (Res.ok 201 announcement, db')
      ∧ db'.posts = db.posts ++ [announcement]
      ∧ db'.notifications = db.notifications ++ newNotifs
      ∧ newNotifs.length = course.enrolledStudents.length + 1
      ∧ (∀ n ∈ newNotifs, n.type = "Announcement" ∧ n.isRead = false)
      ∧ newNotifs.map Notification.userId =
          course.enrolledStudents ++ [course.instructor]
      ∧ "Announcement" ∈ notificationTypeEnum := by
  have key : createAnnouncement db user body newPid now =
      (Res.ok 201 (⟨newPid, body.courseId, user._id, body.title, body.content, "Announcement", [], body.attachments.getD [], [], [], false, false, now⟩ : ForumPost),
       { db with posts := db.posts ++ [⟨newPid, body.courseId, user._id, body.title, body.content, "Announcement", [], body.attachments.getD [], [], [], false, false, now⟩], notifications := db.notifications ++ (announcementStudentNotifications course body.title ++ [⟨course.instructor, "You created a new announcement in " ++ course.title ++ ": \"" ++ body.title ++ "\"", "Announcement", false⟩]) }) := by
    by_cases h0 : course.enrolledStudents.length > 0
    · simp [createAnnouncement, hc, hinstr, h0, List.append_assoc]
    · have hnil : course.enrolledStudents = [] :=
        List.length_eq_zero.mp (by omega)
      simp [createAnnouncement, hc, hinstr, h0, hnil,
        announcementStudentNotifications]
  refine ⟨_, announcementStudentNotifications course body.title ++ [⟨course.instructor, "You created a new announcement in " ++ course.title ++ ": \"" ++ body.title ++ "\"", "Announcement", false⟩], _, key, rfl, rfl, ?_, ?_, ?_, ?_⟩
  · simp [announcementStudentNotifications]
  · intro n hn
    rcases List.mem_append.mp hn with hn | hn
    · rcases List.mem_map.mp hn with ⟨sid, _, rfl⟩
      exact ⟨rfl, rfl⟩
    · rcases List.mem_singleton.mp hn with rfl
      exact ⟨rfl, rfl⟩
  · simp only [announcementStudentNotifications, List.map_append, List.map_map,
      Function.comp_def, List.map_cons, List.map_nil]
    simp
  · simp [notificationTypeEnum]

/-- Witness for C7 at a concrete course with two enrolled students. -/
theorem claim_C7_announcement_fanout_witness :
    ∃ announcement newNotifs db',
      createAnnouncement exDB exInstructor ⟨5, "Ann", "Body", none⟩ 12 300 =
        (Res.ok 201 announcement, db')
      ∧ db'.posts = exDB.posts ++ [announcement]
      ∧ db'.notifications = exDB.notifications ++ newNotifs
      ∧ newNotifs.length = exCourse.enrolledStudents.length + 1
      ∧ (∀ n ∈ newNotifs, n.type = "Announcement" ∧ n.isRead = false)
      ∧ newNotifs.map Notification.userId =
          exCourse.enrolledStudents ++ [exCourse.instructor]
      ∧ "Announcement" ∈ notificationTypeEnum :=
  claim_C7_announcement_fanout exDB exInstructor ⟨5, "Ann", "Body", none⟩
    12 300 exCourse (by decide) (by decide)

/-! ## C5 -/

theorem containsSub_iff (pat l : List Char) :
    containsSub pat l = true ↔ pat <:+: l := by
  induction l with
  | nil => simp [containsSub, List.isEmpty_iff, List.infix_nil]
  | cons c cs ih =>
    simp [containsSub, ih, List.isPrefixOf_iff_prefix, List.infix_cons_iff,
      Bool.or_eq_true]

theorem regexMatchI_iff (pattern text : String) :
    regexMatchI pattern text = true ↔
      lowerChars pattern <:+: lowerChars text :=
  containsSub_iff (lowerChars pattern) (lowerChars text)

/-- C5: for a non-empty search string, `getAllPosts` includes a post in
the match set exactly when the case-insensitively folded search string
occurs inside the folded title or the folded content, and
`getCourseDiscussions` conjoins that same test onto its course and
category conditions; a post matching in neither field is excluded. -/
theorem claim_C5_search_filter (p : ForumPost) (s : String) (hs : s ≠ "")
    (courseId : Oid) (category : Option String) :
    (evalQuery (getAllPostsQuery (some s)) p =
       (regexMatchI s p.title || regexMatchI s p.content))
    ∧ (evalQuery (getCourseDiscussionsQuery courseId category (some s)) p =
       (evalQuery (getCourseDiscussionsQuery courseId category none) p
         && (regexMatchI s p.title || regexMatchI s p.content)))
    ∧ (regexMatchI s p.title = true ↔ lowerChars s <:+: lowerChars p.title)
    ∧ (regexMatchI s p.content = true ↔ lowerChars s <:+: lowerChars p.content) := by
  have hs' : (s != "") = true := by simpa using hs
  refine ⟨?_, ?_, regexMatchI_iff s p.title, regexMatchI_iff s p.content⟩
  · simp [getAllPostsQuery, addSearch, hs', emptyQuery, evalQuery,
      searchOrConds, evalRegexCond]
  · rcases category with _ | c
    · simp [getCourseDiscussionsQuery, addSearch, hs', emptyQuery, evalQuery,
        searchOrConds, evalRegexCond, Bool.and_assoc]
    · by_cases hcq : c = ""
      · simp [getCourseDiscussionsQuery, addSearch, hs', hcq, emptyQuery,
          evalQuery, searchOrConds, evalRegexCond, Bool.and_assoc]
      · have hcq' : (c != "") = true := by simpa using hcq
        simp [getCourseDiscussionsQuery, addSearch, hs', hcq', emptyQuery,
          evalQuery, searchOrConds, evalRegexCond, Bool.and_assoc]

/-- Witness for C5 at a concrete post and search string: "tent" matches
in the content only, "xyz" in neither field. -/
theorem claim_C5_search_filter_witness :
    (evalQuery (getAllPostsQuery (some "tent")) exPost =
       (regexMatchI "tent" exPost.title || regexMatchI "tent" exPost.content))
    ∧ (evalQuery (getCourseDiscussionsQuery 5 none (some "tent")) exPost =
       (evalQuery (getCourseDiscussionsQuery 5 none none) exPost
         && (regexMatchI "tent" exPost.title || regexMatchI "tent" exPost.content)))
    ∧ (regexMatchI "tent" exPost.title = true ↔
        lowerChars "tent" <:+: lowerChars exPost.title)
    ∧ (regexMatchI "tent" exPost.content = true ↔
        lowerChars "tent" <:+: lowerChars exPost.content) :=
  claim_C5_search_filter exPost "tent" (by decide) 5 none

/-! ## C4 -/

theorem insertLe_perm (le : α → α → Bool) (a : α) (l : List α) :
    (insertLe le a l).Perm (a :: l) := by
  induction l with
  | nil => exact List.Perm.refl _
  | cons b bs ih =>
    unfold insertLe
    by_cases h : le a b
    · rw [if_pos h]
    · rw [if_neg h]
      exact (ih.cons b).trans (List.Perm.swap a b bs)

theorem sortByLe_perm (le : α → α → Bool) (l : List α) :
    (sortByLe le l).Perm l := by
  induction l with
  | nil => exact List.Perm.refl _
  | cons a as ih =>
    exact (insertLe_perm le a (sortByLe le as)).trans (ih.cons a)

/-- `(t + limit - 1) / limit` is the ceiling of `t / limit`: the least
number of pages covering `t` matching documents. -/
theorem ceilPages_bounds (t limit : Nat) (hl : 0 < limit) :
    t ≤ ((t + limit - 1) / limit) * limit
    ∧ ∀ m, t ≤ m * limit → (t + limit - 1) / limit ≤ m := by
  constructor
  · have h1 : t + limit - 1 ≤ limit * ((t + limit - 1) / limit) + (limit - 1) :=
      (Nat.div_le_iff_le_mul_add_pred hl).mp (Nat.le_refl _)
    rw [Nat.mul_comm]
    generalize limit * ((t + limit - 1) / limit) = q at h1 ⊢
    omega
  · intro m hm
    have hm' : t ≤ limit * m := by rw [Nat.mul_comm] at hm; exact hm
    refine (Nat.div_le_iff_le_mul_add_pred hl).mpr ?_
    generalize limit * m = q at hm' ⊢
    omega

/-- C4: each paginated list endpoint returns at most `limit` posts — the
window of the sorted match set that skips the first
`(page - 1) * limit` posts — and a pagination object whose `total` is
the number of matching documents, whose `page` echoes the request and
whose `pages` is the ceiling of `total / limit`; the sorted match set
is a permutation of the filtered posts. -/
theorem claim_C4_pagination (db : DB) (user : User) (courseId : Oid)
    (page limit : Nat) (category search : Option String) (course : Course)
    (hl : 0 < limit) (hc : findCourse db courseId = some course)
    (hacc : course.enrolledStudents.contains user._id = true ∨
      course.instructor = user._id) :
    (∀ posts pg, getAllPosts db page limit search = Res.ok 200 (posts, pg) →
       posts = List.take limit (List.drop ((page - 1) * limit)
         (sortByLe byCreatedAtDesc (db.posts.filter (evalQuery (getAllPostsQuery search)))))
       ∧ posts.length ≤ limit
       ∧ (sortByLe byCreatedAtDesc (db.posts.filter (evalQuery (getAllPostsQuery search)))).Perm
           (db.posts.filter (evalQuery (getAllPostsQuery search)))
       ∧ pg.total = db.posts.countP (evalQuery (getAllPostsQuery search))
       ∧ pg.page = page
       ∧ pg.total ≤ pg.pages * limit
       ∧ (∀ m, pg.total ≤ m * limit → pg.pages ≤ m))
    ∧ (∀ posts pg, getCourseDiscussions db user courseId page limit category search =
         Res.ok 200 (posts, pg) →
       posts = List.take limit (List.drop ((page - 1) * limit)
         (sortByLe byPinnedThenCreatedDesc (db.posts.filter (evalQuery (getCourseDiscussionsQuery courseId category search)))))
       ∧ posts.length ≤ limit
       ∧ pg.total = db.posts.countP (evalQuery (getCourseDiscussionsQuery courseId category search))
       ∧ pg.page = page
       ∧ pg.total ≤ pg.pages * limit
       ∧ (∀ m, pg.total ≤ m * limit → pg.pages ≤ m))
    ∧ (∀ posts pg, getMyPosts db user page limit = Res.ok 200 (posts, pg) →
       posts = List.take limit (List.drop ((page - 1) * limit)
         (sortByLe byCreatedAtDesc (db.posts.filter (evalQuery { emptyQuery with author := some user._id }))))
       ∧ posts.length ≤ limit
       ∧ pg.total = db.posts.countP (evalQuery { emptyQuery with author := some user._id })
       ∧ pg.page = page
       ∧ pg.total ≤ pg.pages * limit
       ∧ (∀ m, pg.total ≤ m * limit → pg.pages ≤ m)) := by
  refine ⟨fun posts pg h => ?_, fun posts pg h => ?_, fun posts pg h => ?_⟩
  · unfold getAllPosts at h
    rw [Res.ok.injEq, Prod.mk.injEq] at h
    obtain ⟨-, h1, h2⟩ := h
    subst h1
    subst h2
    refine ⟨rfl, ?_, sortByLe_perm _ _, (List.countP_eq_length_filter _ _).symm,
      rfl, (ceilPages_bounds _ _ hl).1, (ceilPages_bounds _ _ hl).2⟩
    exact List.length_take_le _ _
  · have hguard : (!(course.enrolledStudents.contains user._id)
        && course.instructor != user._id) = false := by
      rcases hacc with h' | h'
      · simp only [h', Bool.not_true, Bool.false_and]
      · simp only [h', bne_self_eq_false, Bool.and_false]
    unfold getCourseDiscussions at h
    simp only [hc, hguard, Bool.false_eq_true, if_false] at h
    rw [Res.ok.injEq, Prod.mk.injEq] at h
    obtain ⟨-, h1, h2⟩ := h
    subst h1
    subst h2
    refine ⟨rfl, ?_, (List.countP_eq_length_filter _ _).symm,
      rfl, (ceilPages_bounds _ _ hl).1, (ceilPages_bounds _ _ hl).2⟩
    exact List.length_take_le _ _
  · unfold getMyPosts at h
    rw [Res.ok.injEq, Prod.mk.injEq] at h
    obtain ⟨-, h1, h2⟩ := h
    subst h1
    subst h2
    refine ⟨rfl, ?_, (List.countP_eq_length_filter _ _).symm,
      rfl, (ceilPages_bounds _ _ hl).1, (ceilPages_bounds _ _ hl).2⟩
    exact List.length_take_le _ _

/-- Witness for C4: one matching post, page 1, limit 10. -/
theorem claim_C4_pagination_witness :
    ([exPost] : List ForumPost) = List.take 10 (List.drop ((1 - 1) * 10)
      (sortByLe byCreatedAtDesc (exDB.posts.filter (evalQuery (getAllPostsQuery none)))))
    ∧ ([exPost] : List ForumPost).length ≤ 10
    ∧ (sortByLe byCreatedAtDesc (exDB.posts.filter (evalQuery (getAllPostsQuery none)))).Perm
        (exDB.posts.filter (evalQuery (getAllPostsQuery none)))
    ∧ (⟨1, 1, 1⟩ : Pagination).total = exDB.posts.countP (evalQuery (getAllPostsQuery none))
    ∧ (⟨1, 1, 1⟩ : Pagination).page = 1
    ∧ (⟨1, 1, 1⟩ : Pagination).total ≤ (⟨1, 1, 1⟩ : Pagination).pages * 10
    ∧ (∀ m, (⟨1, 1, 1⟩ : Pagination).total ≤ m * 10 →
        (⟨1, 1, 1⟩ : Pagination).pages ≤ m) :=
  (claim_C4_pagination exDB exUserA 5 1 10 none none exCourse (by decide)
    (by decide) (Or.inl (by decide))).1 [exPost] ⟨1, 1, 1⟩ (by decide)

/-! ## C8 -/

/-- C8: because `/:postId` is registered before `/all`, an authenticated
`GET /forum/all` is dispatched to `getPostById` with the parameter
`postId = "all"`, and no request at all ever reaches the `getAllPosts`
handler registered at `/all`. -/
theorem claim_C8_route_shadowing :
    forumDispatch Method.GET ["all"] =
      some (Handler.getPostById, [("postId", "all")])
    ∧ ∀ segs : List String,
        hitsGetAllPosts (forumDispatch Method.GET segs) = false := by
  constructor
  · decide
  · intro segs
    rcases segs with _ | ⟨a, _ | ⟨b, _ | ⟨c, t⟩⟩⟩
    · decide
    · by_cases h2 : a = "my-posts"
      · subst h2; decide
      · by_cases h3 : a = "announcements"
        · subst h3; decide
        · simp [forumDispatch, dispatch, forumRoutes, matchPattern,
            hitsGetAllPosts, h2, h3, Ne.symm h2, Ne.symm h3]
    · by_cases h1 : a = "course"
      · subst h1
        simp [forumDispatch, dispatch, forumRoutes, matchPattern,
          hitsGetAllPosts]
      · simp [forumDispatch, dispatch, forumRoutes, matchPattern,
          hitsGetAllPosts, h1, Ne.symm h1]
    · simp [forumDispatch, dispatch, forumRoutes, matchPattern,
        hitsGetAllPosts]

end EVidwan
